import Mathlib

/-!
Shallow embedding of the `asyncurl` multiplexing-session adapter
(`src/mhandle.cpp`, `src/handle.cpp` and their headers).

The transfer engine (libcurl) and the reactor (miniloop) are external
collaborators; their behaviour is modelled by an `Engine` oracle record whose
fields give the outcome of each engine entry point invoked by the code under
verification (`curl_multi_add_handle`, `curl_multi_remove_handle`,
`curl_multi_socket_action`, `curl_multi_info_read`, `curl_easy_perform`).

Identities: an `asyncurl::handle` and its engine transfer object (`CURL*`)
are in 1:1 correspondence, so both are modelled by a single `HandleId`;
a session (`asyncurl::mhandle`) is a `SessionId`.  The `handles__` pool
(a `std::map<void*, handle*>` keyed by the raw easy handle) is modelled as
the list of its keys, and the `ios__` pool
(`std::map<void*, uptr<Loop::IO>>`, keyed by the raw easy handle as well)
as a finite partial map `HandleId → Option IOWatch`.

Reactor side effects (timer cancel, miniloop watch registration) and user
callback invocations are recorded in an event trace `List Ev` so that
observable behaviour can be stated and compared.
-/

namespace asyncurl

abbrev HandleId := Nat
abbrev SessionId := Nat

/-- `mhandle::MHDL_RetCode` (mhandle.hpp). -/
inductive MHDL_RetCode where
  | MHDL_OK
  | MHDL_BAD_PARAM
  | MHDL_ADD_OWNED
  | MHDL_ADD_ALREADY
  | MHDL_REMOVE_OWNED
  | MHDL_REMOVE_ALREADY
  | MHDL_BAD_HANDLE
  | MHDL_OUT_OF_MEM
  | MHDL_INTERNAL_ERROR
  deriving DecidableEq, Repr

/-- `handle::HDL_RetCode` (handle.hpp). -/
inductive HDL_RetCode where
  | HDL_MULTI_STOPPED
  | HDL_OK
  | HDL_BAD_PARAM
  | HDL_BAD_FUNCTION
  | HDL_OUT_OF_MEM
  | HDL_INTERNAL_ERROR
  deriving DecidableEq, Repr

/-- Integer values of `HDL_RetCode` (the done callback receives a plain int). -/
def HDL_RetCode.toInt : HDL_RetCode → Int
  | .HDL_MULTI_STOPPED => -1
  | .HDL_OK => 0
  | .HDL_BAD_PARAM => 1
  | .HDL_BAD_FUNCTION => 2
  | .HDL_OUT_OF_MEM => 3
  | .HDL_INTERNAL_ERROR => 4

/-- `#define MHDL_STOPPED -1` (mhandle.cpp line 18): sentinel stored in
`running_handles__` once the session is stopped. -/
def MHDL_STOPPED : Int := -1

def CURLM_OK : Int := 0

-- libcurl socket-callback `what` values.
def CURL_POLL_IN : Nat := 1
def CURL_POLL_OUT : Nat := 2
def CURL_POLL_INOUT : Nat := 3
def CURL_POLL_REMOVE : Nat := 4

-- miniloop `Loop::IO` readiness bits (abstract bit positions).
def IO_READ : Nat := 1
def IO_WRITE : Nat := 2

-- libcurl `curl_multi_socket_action` readiness bits.
def CURL_CSELECT_IN : Nat := 1
def CURL_CSELECT_OUT : Nat := 2

-- pause-flag bits (`CURLPAUSE_RECV = 1`, `CURLPAUSE_SEND = 4`).
def CURLPAUSE_RECV : Nat := 1
def CURLPAUSE_SEND : Nat := 4
def CURLPAUSE_ALL : Nat := 5

/-- One `Loop::IO` socket watch owned by the session (`ios__` values):
its current descriptor (`setFd`) and requested readiness bits
(`setRequestedEvents`). -/
structure IOWatch where
  fd : Nat
  requested : Nat
  deriving DecidableEq, Repr, Inhabited

/-- State of one `asyncurl::handle` (handle.hpp private fields) together with
the engine-side (curl easy handle) option state that the code manipulates:
`opt_private` (CURLOPT_PRIVATE points back to the handle), `opt_nosignal`
(CURLOPT_NOSIGNAL), and `write_hidden` (whether CURLOPT_WRITEFUNCTION holds
the library's hidden wrapper rather than the engine's stdout default).
Callback slots are tracked by whether a user callback is installed. -/
structure HState where
  multi_handler : Option SessionId
  flags : Nat
  opt_private : Bool
  opt_nosignal : Bool
  write_hidden : Bool
  cb_write : Bool
  cb_read : Bool
  cb_progress : Bool
  cb_header : Bool
  cb_debug : Bool
  cb_done : Bool
  lists : List Int
  strings : List Int
  deriving DecidableEq, Repr, Inhabited

/-- State of one `asyncurl::mhandle`: the transfer pool `handles__`
(modelled by its key list), the socket-watch pool `ios__` (keyed, as in the
header, by the raw easy-handle pointer), the engine's own per-socket
association installed via `curl_multi_assign`, and `running_handles__`. -/
structure MState where
  handles : List HandleId
  ios : HandleId → Option IOWatch
  assoc : Nat → Option HandleId
  running : Int
  deriving Inhabited

/-- The world: every handle's state and every session's state. -/
structure World where
  hs : HandleId → HState
  ms : SessionId → MState
  deriving Inhabited

/-- A completion message returned by `curl_multi_info_read`
(`CURLMsg`): whether `msg == CURLMSG_DONE`, the easy handle, and
`data.result`. -/
structure Msg where
  msg_done : Bool
  easy_handle : HandleId
  result : Int
  deriving DecidableEq, Repr, Inhabited

/-- Oracle giving the outcome of each engine entry point invoked during one
top-level operation: whether `curl_multi_add_handle` succeeds, whether
`curl_multi_remove_handle` succeeds for a given handle, the return code and
resulting running count of `curl_multi_socket_action`, and the stream of
messages `curl_multi_info_read` will deliver. -/
structure Engine where
  multiAdd : Bool
  multiRemove : HandleId → Bool
  actionRet : Int
  actionRunning : Int
  msgs : List Msg
  deriving Inhabited

/-- Observable events: user done-callback invocations, the session error
callback, reactor timer cancellation, release of the engine multiplexer
(`curl_multi_cleanup`), engine action calls, and entry into the completion
drain (`handle_msgs`). -/
inductive Ev where
  | cbDone (h : HandleId) (code : Int)
  | cbError (code : Int)
  | timerCancel
  | multiCleanup
  | socketAction (bitmask : Nat)
  | timeoutAction
  | drain
  deriving DecidableEq, Repr

/-- `mhandle::remove_handle` (mhandle.cpp lines 212-229).  Returns the
retcode and the successor world.  On engine success it clears the handle's
owning-session reference, erases the pool entry and — notably — also erases
the `ios__` entry keyed by the same raw easy handle. -/
def remove_handle (w : World) (s : SessionId) (hid : HandleId) (eng : Engine) :
    MHDL_RetCode × World :=
  if (w.hs hid).multi_handler = none then (.MHDL_REMOVE_ALREADY, w)
  else if (w.hs hid).multi_handler ≠ some s then (.MHDL_REMOVE_OWNED, w)
  else if eng.multiRemove hid then
    (.MHDL_OK,
      { hs := Function.update w.hs hid ({ w.hs hid with multi_handler := none })
        ms := Function.update w.ms s
          ({ w.ms s with
             handles := (w.ms s).handles.erase hid
             ios := Function.update (w.ms s).ios hid none }) })
  else (.MHDL_INTERNAL_ERROR, w)

/-- The pool walk inside `mhandle::handle_stop` (lines 476-484): each entry
is erased from the pool, its owning-session reference cleared, and its done
callback invoked with `HDL_MULTI_STOPPED`. -/
def stop_walk (s : SessionId) : List HandleId → World → World × List Ev
  | [], w => (w, [])
  | hid :: rest, w =>
    let m1 : MState := { w.ms s with handles := rest }
    let w1 : World := { w with ms := Function.update w.ms s m1 }
    let h1 : HState := { w1.hs hid with multi_handler := none }
    let w2 : World := { w1 with hs := Function.update w1.hs hid h1 }
    let r := stop_walk s rest w2
    (r.1, Ev.cbDone hid HDL_RetCode.HDL_MULTI_STOPPED.toInt :: r.2)

/-- `mhandle::handle_stop` (mhandle.cpp lines 471-491): set
`running_handles__` to the stopped sentinel, force-complete and detach every
pooled transfer, cancel the timer, release the multiplexer
(`curl_multi_cleanup`), and invoke the error callback when the trigger was
an error.  Note the absence of any already-stopped guard. -/
def handle_stop (w : World) (s : SessionId) (errCode : Int) : World × List Ev :=
  let w0 : World :=
    { w with ms := Function.update w.ms s ({ w.ms s with running := MHDL_STOPPED }) }
  let r := stop_walk s (w.ms s).handles w0
  (r.1,
    r.2 ++ [Ev.timerCancel, Ev.multiCleanup] ++
      (if errCode ≠ CURLM_OK then [Ev.cbError errCode] else []))

/-- A done-callback invocation observed during completion draining: which
handle, the result code passed in, and the world state the callback runs in. -/
structure CbObs where
  hid : HandleId
  code : Int
  obsW : World
  deriving Inhabited

/-- The message loop of `mhandle::handle_msgs` (mhandle.cpp lines 506-518):
for each `CURLMSG_DONE` message whose easy handle is found in the pool,
`remove_handle` is performed and then — if installed — the done callback is
invoked with the message's result code. -/
def handle_msgs_go (s : SessionId) (eng : Engine) :
    List Msg → World → World × List Ev × List CbObs
  | [], w => (w, [], [])
  | m :: rest, w =>
    if m.msg_done = false then handle_msgs_go s eng rest w
    else if m.easy_handle ∈ (w.ms s).handles then
      let w1 := (remove_handle w s m.easy_handle eng).2
      let fire := (w1.hs m.easy_handle).cb_done
      let r := handle_msgs_go s eng rest w1
      (r.1,
        (if fire then [Ev.cbDone m.easy_handle m.result] else []) ++ r.2.1,
        (if fire then [CbObs.mk m.easy_handle m.result w1] else []) ++ r.2.2)
    else handle_msgs_go s eng rest w

/-- `mhandle::handle_msgs` (mhandle.cpp lines 500-519). -/
def handle_msgs (w : World) (s : SessionId) (eng : Engine) :
    World × List Ev × List CbObs :=
  handle_msgs_go s eng eng.msgs w

/-- `mhandle::add_handle` (mhandle.cpp lines 174-202): guard order is
stopped session, already owned by this session, owned elsewhere; then
`curl_multi_add_handle`; on success the owner reference is set and the pool
entry inserted, and if the running count was zero a bootstrap
`curl_multi_socket_action(CURL_SOCKET_TIMEOUT)` is performed followed by a
completion drain (engine action failure escalates to `handle_stop`). -/
def add_handle (w : World) (s : SessionId) (hid : HandleId) (eng : Engine) :
    MHDL_RetCode × World × List Ev :=
  if (w.ms s).running = MHDL_STOPPED then (.MHDL_INTERNAL_ERROR, w, [])
  else if (w.hs hid).multi_handler = some s then (.MHDL_ADD_ALREADY, w, [])
  else if (w.hs hid).multi_handler ≠ none then (.MHDL_ADD_OWNED, w, [])
  else if eng.multiAdd then
    let w1 : World :=
      { hs := Function.update w.hs hid ({ w.hs hid with multi_handler := some s })
        ms := Function.update w.ms s
          ({ w.ms s with handles := hid :: (w.ms s).handles }) }
    if (w.ms s).running = 0 then
      if eng.actionRet ≠ CURLM_OK then
        let r := handle_stop w1 s eng.actionRet
        (.MHDL_INTERNAL_ERROR, r.1, r.2)
      else
        let m2 : MState := { w1.ms s with running := eng.actionRunning }
        let w2 : World := { w1 with ms := Function.update w1.ms s m2 }
        let r := handle_msgs w2 s eng
        (.MHDL_OK, r.1, Ev.drain :: r.2.1)
    else (.MHDL_OK, w1, [])
  else (.MHDL_INTERNAL_ERROR, w, [])

/-- Translation of reactor readiness bits into the engine's
`curl_multi_socket_action` bitmask (mhandle.cpp lines 79-80). -/
def select_bitmask (revents : Nat) : Nat :=
  (if revents &&& IO_READ ≠ 0 then CURL_CSELECT_IN else 0) |||
  (if revents &&& IO_WRITE ≠ 0 then CURL_CSELECT_OUT else 0)

/-- The `onEvent` closure installed on each socket watch
(mhandle.cpp lines 75-90): translate reactor bits, invoke the engine's
socket action; on an unrecoverable error run `handle_stop` and return
without draining; otherwise drain completions only when the running count
changed. -/
def socket_event (w : World) (s : SessionId) (revents : Nat) (eng : Engine) :
    World × List Ev :=
  let rhandles := (w.ms s).running
  if eng.actionRet ≠ CURLM_OK then
    let r := handle_stop w s eng.actionRet
    (r.1, Ev.socketAction (select_bitmask revents) :: r.2)
  else
    let m1 : MState := { w.ms s with running := eng.actionRunning }
    let w1 : World := { w with ms := Function.update w.ms s m1 }
    if eng.actionRunning ≠ rhandles then
      let r := handle_msgs w1 s eng
      (r.1, Ev.socketAction (select_bitmask revents) :: Ev.drain :: r.2.1)
    else (w1, [Ev.socketAction (select_bitmask revents)])

/-- The `onTimeout` closure installed on the session timer
(mhandle.cpp lines 129-140): same structure as `socket_event`, with the
timeout action entry point. -/
def timer_event (w : World) (s : SessionId) (eng : Engine) : World × List Ev :=
  let rhandles := (w.ms s).running
  if eng.actionRet ≠ CURLM_OK then
    let r := handle_stop w s eng.actionRet
    (r.1, Ev.timeoutAction :: r.2)
  else
    let m1 : MState := { w.ms s with running := eng.actionRunning }
    let w1 : World := { w with ms := Function.update w.ms s m1 }
    if eng.actionRunning ≠ rhandles then
      let r := handle_msgs w1 s eng
      (r.1, Ev.timeoutAction :: Ev.drain :: r.2.1)
    else (w1, [Ev.timeoutAction])

/-- Readiness bits requested from the watch for a given `what`
(mhandle.cpp lines 95-102). -/
def pollEvents (what : Nat) : Nat :=
  if what = CURL_POLL_INOUT then IO_READ ||| IO_WRITE
  else if what = CURL_POLL_IN then IO_READ
  else if what = CURL_POLL_OUT then IO_WRITE
  else 0

/-- `mhandle::socket_callback` (mhandle.cpp lines 57-108).  `socketp` is the
per-socket private pointer previously installed via `curl_multi_assign`,
identified here by the `ios__` key it points at.  On `CURL_POLL_REMOVE` the
watch merely has its requested events cleared; otherwise a watch is lazily
created on first sight (and associated with the engine's socket bookkeeping),
then the watch's descriptor and requested bits are set. -/
def socket_callback (w : World) (s : SessionId) (easy : HandleId) (sock : Nat)
    (what : Nat) (socketp : Option HandleId) : World × Int :=
  if what = CURL_POLL_REMOVE then
    match socketp with
    | some k =>
      match (w.ms s).ios k with
      | some io =>
        let m1 : MState :=
          { w.ms s with ios := Function.update (w.ms s).ios k (some { io with requested := 0 }) }
        ({ w with ms := Function.update w.ms s m1 }, CURLM_OK)
      | none => (w, CURLM_OK)
    | none => (w, CURLM_OK)
  else
    let wk : World × HandleId :=
      match socketp with
      | some k => (w, k)
      | none =>
        let mNew : MState :=
          { w.ms s with
            ios := Function.update (w.ms s).ios easy (some { fd := sock, requested := 0 })
            assoc := Function.update (w.ms s).assoc sock (some easy) }
        ({ w with ms := Function.update w.ms s mNew }, easy)
    let w1 := wk.1
    let k := wk.2
    match (w1.ms s).ios k with
    | some io =>
      let m2 : MState :=
        { w1.ms s with
          ios := Function.update (w1.ms s).ios k
            (some { io with fd := sock, requested := pollEvents what }) }
      ({ w1 with ms := Function.update w1.ms s m2 }, CURLM_OK)
    | none => (w1, CURLM_OK)

/-- The `handle` default constructor (handle.cpp lines 42-52): installs
`CURLOPT_PRIVATE = this`, `CURLOPT_NOSIGNAL = true`, and the hidden
write wrapper with a user write callback that discards all data. -/
def handle_new : HState :=
  { multi_handler := none
    flags := 0
    opt_private := true
    opt_nosignal := true
    write_hidden := true
    cb_write := true
    cb_read := false
    cb_progress := false
    cb_header := false
    cb_debug := false
    cb_done := false
    lists := []
    strings := [] }

/-- `handle::reset` (handle.cpp lines 473-491): remove from the owning
session if any, `curl_easy_reset` (all engine-side transfer options back to
engine defaults), re-set only `CURLOPT_PRIVATE`, clear every stored user
callback, the option lists/strings, and the pause flags. -/
def reset (w : World) (hid : HandleId) (eng : Engine) : World :=
  let w1 : World :=
    match (w.hs hid).multi_handler with
    | some s => (remove_handle w s hid eng).2
    | none => w
  let h1 : HState :=
    { w1.hs hid with
      opt_private := true
      opt_nosignal := false
      write_hidden := false
      cb_write := false
      cb_read := false
      cb_progress := false
      cb_header := false
      cb_debug := false
      cb_done := false
      lists := []
      strings := []
      flags := 0 }
  { w1 with hs := Function.update w1.hs hid h1 }

/-- `handle::perform_blocking` (handle.cpp lines 455-466).  Returns the
retcode together with the list of codes passed to the done callback
(empty when the callback is absent or the call is rejected).
`performOK` is the outcome of `curl_easy_perform`. -/
def perform_blocking (h : HState) (performOK : Bool) : HDL_RetCode × List Int :=
  if h.multi_handler ≠ none then (.HDL_BAD_FUNCTION, [])
  else
    let res : HDL_RetCode := if performOK then .HDL_OK else .HDL_INTERNAL_ERROR
    (res, if h.cb_done then [res.toInt] else [])

/-- `handle::is_paused` (handle.cpp lines 128-132). -/
def is_paused (h : HState) (bitmask : Nat) : Bool :=
  h.flags &&& bitmask != 0

/-! ### Concrete fixtures used by the witnesses and counterexamples below -/

/-- An idle session state with no transfers and no watches. -/
def mstate0 : MState :=
  { handles := [], ios := fun _ => none, assoc := fun _ => none, running := 0 }

/-- An engine oracle whose every call succeeds and which delivers no
completion messages; the bootstrap action reports one running transfer. -/
def engOK : Engine :=
  { multiAdd := true, multiRemove := fun _ => true, actionRet := CURLM_OK
    actionRunning := 1, msgs := [] }

/-- World for the C1 witness: handle 2 unowned, session 0 idle. -/
def W1w : World := { hs := fun _ => handle_new, ms := fun _ => mstate0 }

/-- World for the C2 witness: session 0 owns handle 1 (pool `[1]`,
one running transfer), and handle 1 has a done callback installed. -/
def W2c : World :=
  { hs := fun n =>
      if n = 1 then { handle_new with multi_handler := some 0, cb_done := true }
      else handle_new
    ms := fun _ => { mstate0 with handles := [1], running := 1 } }

/-- Engine oracle for the C2 witness: one `CURLMSG_DONE` message for
handle 1 with result code 42. -/
def E2c : Engine :=
  { engOK with msgs := [{ msg_done := true, easy_handle := 1, result := 42 }] }

/-- The world in which handle 1's done callback runs during the C2 witness
drain: the state right after `remove_handle`. -/
def W2c' : World := (remove_handle W2c 0 1 E2c).2

/-- World for the C3 evaluation: session 0 owns handle 1, one running
transfer. -/
def W3c : World :=
  { hs := fun n =>
      if n = 1 then { handle_new with multi_handler := some 0, cb_done := true }
      else handle_new
    ms := fun _ => { mstate0 with handles := [1], running := 1 } }

/-- World for the C4 evaluation: session 0 owns handle 5 and holds a live
socket watch keyed by handle 5 (fd 9, read interest). -/
def W4c : World :=
  { hs := fun n =>
      if n = 5 then { handle_new with multi_handler := some 0 } else handle_new
    ms := fun _ =>
      { mstate0 with
        handles := [5]
        ios := Function.update mstate0.ios 5 (some { fd := 9, requested := IO_READ })
        assoc := Function.update mstate0.assoc 9 (some 5)
        running := 1 } }

/-- World for the C5 counterexample: session 0 owns handle 2, one running
transfer, done callback installed. -/
def W5c : World :=
  { hs := fun n =>
      if n = 2 then { handle_new with multi_handler := some 0, cb_done := true }
      else handle_new
    ms := fun _ => { mstate0 with handles := [2], running := 1 } }

/-- Engine oracle for the C5 counterexample: the socket action succeeds and
leaves the running count unchanged at 1, yet a completion message for
handle 2 is pending in the queue. -/
def E5c : Engine :=
  { engOK with
    actionRunning := 1
    msgs := [{ msg_done := true, easy_handle := 2, result := 0 }] }

/-- Engine oracle whose action call fails with an unrecoverable error. -/
def E5err : Engine := { engOK with actionRet := 6 }

/-- Engine oracle whose action call succeeds and changes the running count
(1 running transfer becomes 0). -/
def E5chg : Engine :=
  { engOK with
    actionRunning := 0
    msgs := [{ msg_done := true, easy_handle := 2, result := 0 }] }

/-- World for the C6 evaluation: a freshly constructed, unowned handle 0. -/
def W6c : World := { hs := fun _ => handle_new, ms := fun _ => mstate0 }

/-- Handle state for the C7 witness: unowned, done callback installed. -/
def H7c : HState := { handle_new with cb_done := true }

/-- Handle state for the C7 witness: owned by session 0, done callback
installed. -/
def H7o : HState :=
  { handle_new with multi_handler := some 0, cb_done := true }

/-- World for the C8 counterexample and witness: session 0 holds a live
watch keyed by handle 3 (fd 9, read interest), associated to socket 9. -/
def W8c : World :=
  { hs := fun _ => handle_new
    ms := fun _ =>
      { mstate0 with
        handles := [3]
        ios := Function.update mstate0.ios 3 (some { fd := 9, requested := IO_READ })
        assoc := Function.update mstate0.assoc 9 (some 3)
        running := 1 } }

/-- World for the C9 witness: session 0 owns handle 4. -/
def W9c : World :=
  { hs := fun n =>
      if n = 4 then { handle_new with multi_handler := some 0 } else handle_new
    ms := fun _ => { mstate0 with handles := [4], running := 1 } }

/-- Engine oracle for the C9 witness: `curl_multi_remove_handle` fails. -/
def E9c : Engine := { engOK with multiRemove := fun _ => false }

/-- Handle state for the C10 witness: paused in the receive and send
directions (flags = CURLPAUSE_RECV ||| CURLPAUSE_SEND = 5). -/
def H10c : HState := { handle_new with flags := 5 }

/-! ### Helper lemmas -/

/-- Shape of a successful `remove_handle` on a handle owned by `s`. -/
theorem remove_handle_owned (w : World) (s : SessionId) (hid : HandleId) (eng : Engine)
    (hOwn : (w.hs hid).multi_handler = some s) (hRem : eng.multiRemove hid = true) :
    remove_handle w s hid eng =
      (.MHDL_OK,
        { hs := Function.update w.hs hid ({ w.hs hid with multi_handler := none })
          ms := Function.update w.ms s
            ({ w.ms s with
               handles := (w.ms s).handles.erase hid
               ios := Function.update (w.ms s).ios hid none }) }) := by
  unfold remove_handle
  rw [if_neg (by simp [hOwn]), if_neg (by simp [hOwn]), if_pos hRem]

/-- `remove_handle` of a different handle neither changes `hid`'s state nor
evicts `hid` from the pool, and never changes any running count. -/
theorem remove_handle_frame (w : World) (s : SessionId) (a hid : HandleId) (eng : Engine)
    (hne : a ≠ hid) :
    (remove_handle w s a eng).2.hs hid = w.hs hid ∧
    (hid ∈ (w.ms s).handles → hid ∈ ((remove_handle w s a eng).2.ms s).handles) ∧
    (∀ t, ((remove_handle w s a eng).2.ms t).running = (w.ms t).running) := by
  unfold remove_handle
  split_ifs with h1 h2 h3
  · exact ⟨rfl, fun h => h, fun _ => rfl⟩
  · exact ⟨rfl, fun h => h, fun _ => rfl⟩
  · refine ⟨?_, ?_, ?_⟩
    · exact Function.update_noteq (Ne.symm hne) _ _
    · intro hmem
      simp only [Function.update_same]
      exact (List.mem_erase_of_ne (Ne.symm hne)).mpr hmem
    · intro t
      by_cases hts : t = s
      · subst hts; simp [Function.update_same]
      · simp [Function.update_noteq hts]
  · exact ⟨rfl, fun h => h, fun _ => rfl⟩

/-- The completion drain leaves untouched every handle for which no done
message is queued: its state is unchanged and it stays in the pool. -/
theorem handle_msgs_go_preserve (s : SessionId) (eng : Engine) :
    ∀ (msgs : List Msg) (w : World) (hid : HandleId),
      (∀ m ∈ msgs, m.msg_done = true → m.easy_handle ≠ hid) →
      (handle_msgs_go s eng msgs w).1.hs hid = w.hs hid ∧
      (hid ∈ (w.ms s).handles → hid ∈ ((handle_msgs_go s eng msgs w).1.ms s).handles) := by
  intro msgs
  induction msgs with
  | nil => intro w hid _; exact ⟨rfl, fun h => h⟩
  | cons m rest ih =>
    intro w hid hNo
    have hNoRest : ∀ m' ∈ rest, m'.msg_done = true → m'.easy_handle ≠ hid :=
      fun m' hm' => hNo m' (List.mem_cons_of_mem _ hm')
    by_cases hdone : m.msg_done = false
    · simpa [handle_msgs_go, hdone] using ih w hid hNoRest
    · have hdone' : m.msg_done = true := by
        revert hdone; cases m.msg_done <;> simp
      have hne : m.easy_handle ≠ hid := hNo m (List.mem_cons_self _ _) hdone'
      by_cases hmem : m.easy_handle ∈ (w.ms s).handles
      · have hfr := remove_handle_frame w s m.easy_handle hid eng hne
        have ihr := ih (remove_handle w s m.easy_handle eng).2 hid hNoRest
        constructor
        · rw [show (handle_msgs_go s eng (m :: rest) w).1 =
              (handle_msgs_go s eng rest (remove_handle w s m.easy_handle eng).2).1 from by
            simp [handle_msgs_go, hdone', hmem]]
          exact ihr.1.trans hfr.1
        · intro hh
          rw [show (handle_msgs_go s eng (m :: rest) w).1 =
              (handle_msgs_go s eng rest (remove_handle w s m.easy_handle eng).2).1 from by
            simp [handle_msgs_go, hdone', hmem]]
          exact ihr.2 (hfr.2.1 hh)
      · simpa [handle_msgs_go, hdone', hmem] using ih w hid hNoRest

/-- An unowned handle is accepted by `add_handle` on a non-stopped session
whenever the engine's add and bootstrap action calls succeed. -/
theorem add_handle_ok_of_unowned (w : World) (s : SessionId) (hid : HandleId) (eng : Engine)
    (hRun : (w.ms s).running ≠ MHDL_STOPPED)
    (hOwn : (w.hs hid).multi_handler = none)
    (hAdd : eng.multiAdd = true) (hAct : eng.actionRet = CURLM_OK) :
    (add_handle w s hid eng).1 = .MHDL_OK := by
  have hRun' : ¬((w.ms s).running = -1) := by simpa [MHDL_STOPPED] using hRun
  by_cases h0 : (w.ms s).running = 0 <;>
    simp [add_handle, hRun', hOwn, hAdd, hAct, h0, MHDL_STOPPED]

/-- The stop-procedure pool walk never enters the completion drain. -/
theorem drain_not_mem_stop_walk (s : SessionId) :
    ∀ (l : List HandleId) (w : World), Ev.drain ∉ (stop_walk s l w).2 := by
  intro l
  induction l with
  | nil => intro w; simp [stop_walk]
  | cons hid rest ih => intro w; simp [stop_walk]; exact ih _

/-- The stop procedure never enters the completion drain. -/
theorem drain_not_mem_handle_stop (w : World) (s : SessionId) (e : Int) :
    Ev.drain ∉ (handle_stop w s e).2 := by
  unfold handle_stop
  simp only [List.mem_append, List.mem_cons, List.mem_singleton]
  intro hmem
  rcases hmem with (h | h) | h
  · exact drain_not_mem_stop_walk s _ _ h
  · rcases h with h | h | h <;> simp_all
  · revert h; split <;> simp

/-! ### Claim theorems -/

/-- C3: the claim says a second stop on an already-Stopped session is a
no-op with no repeated release of the engine multiplexer.  Evaluating the
code at the failing input — an error-triggered stop followed by the stop
the destructor performs — shows `handle_stop` has no already-stopped guard:
the second call again cancels the timer and again calls
`curl_multi_cleanup` on the already-released multiplexer (a double
release), so the two stops release the multiplexer twice in total. -/
theorem handle_stop_double_cleanup :
    ((handle_stop W3c 0 7).2 ++
        (handle_stop (handle_stop W3c 0 7).1 0 CURLM_OK).2).count Ev.multiCleanup = 2 ∧
    (handle_stop (handle_stop W3c 0 7).1 0 CURLM_OK).2 =
      [Ev.timerCancel, Ev.multiCleanup] := by
  decide

/-- C4: the claim says a successful removal clears the owner reference and
erases the pool entry but leaves the socket-watch pool entry for the
transfer unchanged.  Evaluating `remove_handle` at the failing input — a
session owning handle 5 with a live watch keyed by that transfer — shows
the code also erases (and thereby destroys) the `ios__` watch entry. -/
theorem remove_handle_erases_watch :
    (W4c.ms 0).ios 5 = some { fd := 9, requested := IO_READ } ∧
    (remove_handle W4c 0 5 engOK).1 = .MHDL_OK ∧
    ((remove_handle W4c 0 5 engOK).2.hs 5).multi_handler = none ∧
    5 ∉ ((remove_handle W4c 0 5 engOK).2.ms 0).handles ∧
    ((remove_handle W4c 0 5 engOK).2.ms 0).ios 5 = none := by
  decide

/-- C5 counterexample: a reactor-delivered readiness event whose engine
action call succeeds but leaves the running-transfer count unchanged
performs no completion drain, even though a completion message for the
pooled handle 2 is pending — refuting "drains after every successful
action call". -/
theorem socket_event_no_drain_counterexample :
    E5c.actionRet = CURLM_OK ∧
    E5c.msgs ≠ [] ∧
    (socket_event W5c 0 IO_READ E5c).2 = [Ev.socketAction 1] ∧
    Ev.drain ∉ (socket_event W5c 0 IO_READ E5c).2 := by
  decide

/-- C5 (amended): on every reactor socket event and timer expiry the
session invokes the engine action entry point; if the action reports an
unrecoverable error the stop procedure runs and no drain occurs on that
path; after a successful action the completion drain runs if and only if
the running-transfer count changed. -/
theorem event_drain_gated_on_count (w : World) (s : SessionId) (revents : Nat) (eng : Engine) :
    (eng.actionRet ≠ CURLM_OK →
      socket_event w s revents eng =
        ((handle_stop w s eng.actionRet).1,
          Ev.socketAction (select_bitmask revents) :: (handle_stop w s eng.actionRet).2) ∧
      timer_event w s eng =
        ((handle_stop w s eng.actionRet).1,
          Ev.timeoutAction :: (handle_stop w s eng.actionRet).2) ∧
      Ev.drain ∉ (socket_event w s revents eng).2 ∧
      Ev.drain ∉ (timer_event w s eng).2) ∧
    (eng.actionRet = CURLM_OK →
      (Ev.drain ∈ (socket_event w s revents eng).2 ↔
        eng.actionRunning ≠ (w.ms s).running) ∧
      (Ev.drain ∈ (timer_event w s eng).2 ↔
        eng.actionRunning ≠ (w.ms s).running)) := by
  constructor
  · intro herr
    refine ⟨by simp [socket_event, herr], by simp [timer_event, herr], ?_, ?_⟩
    · simp only [socket_event, if_pos herr, List.mem_cons]
      rintro (h | h)
      · exact absurd h (by simp)
      · exact drain_not_mem_handle_stop w s eng.actionRet h
    · simp only [timer_event, if_pos herr, List.mem_cons]
      rintro (h | h)
      · exact absurd h (by simp)
      · exact drain_not_mem_handle_stop w s eng.actionRet h
  · intro hok
    by_cases hchg : eng.actionRunning = (w.ms s).running
    · constructor <;> simp [socket_event, timer_event, hok, hchg]
    · constructor <;> simp [socket_event, timer_event, hok, hchg]

/-- Witness for C5 (amended) at concrete inputs: a failing action stops the
session without draining, and a successful action drains exactly when the
running count changed (here: 1 became 0). -/
theorem event_drain_gated_on_count_witness :
    Ev.drain ∉ (socket_event W5c 0 IO_READ E5err).2 ∧
    Ev.drain ∉ (timer_event W5c 0 E5err).2 ∧
    (Ev.drain ∈ (socket_event W5c 0 IO_READ E5chg).2 ↔
      E5chg.actionRunning ≠ (W5c.ms 0).running) := by
  have ha := (event_drain_gated_on_count W5c 0 IO_READ E5err).1 (by decide)
  have hb := (event_drain_gated_on_count W5c 0 IO_READ E5chg).2 rfl
  exact ⟨ha.2.2.1, ha.2.2.2, hb.1⟩

/-- C6: the claim says `reset()` re-establishes both mandatory baseline
options (signal-safety via CURLOPT_NOSIGNAL and self-identification via
CURLOPT_PRIVATE) and restores the discard-by-default write behaviour.
Evaluating `reset` on a freshly constructed handle shows the code re-sets
only CURLOPT_PRIVATE: the engine-side NOSIGNAL option and the hidden write
wrapper (whose absence means the engine's stdout default, not discard) are
left at the engine defaults that `curl_easy_reset` restored. -/
theorem reset_baseline_not_restored :
    handle_new.opt_nosignal = true ∧
    handle_new.write_hidden = true ∧
    handle_new.cb_write = true ∧
    ((reset W6c 0 engOK).hs 0).opt_private = true ∧
    ((reset W6c 0 engOK).hs 0).opt_nosignal = false ∧
    ((reset W6c 0 engOK).hs 0).write_hidden = false ∧
    ((reset W6c 0 engOK).hs 0).cb_write = false ∧
    ((reset W6c 0 engOK).hs 0).cb_read = false ∧
    ((reset W6c 0 engOK).hs 0).cb_progress = false ∧
    ((reset W6c 0 engOK).hs 0).cb_header = false ∧
    ((reset W6c 0 engOK).hs 0).cb_debug = false ∧
    ((reset W6c 0 engOK).hs 0).cb_done = false ∧
    ((reset W6c 0 engOK).hs 0).flags = 0 := by
  decide

/-- C7: `perform_blocking` on a unit owned by a session fails with the
bad-function code and invokes no done callback; on an unowned unit it maps
the engine's synchronous perform outcome to a unit-level code and, when a
done callback is installed, invokes it with exactly that code before
returning it. -/
theorem perform_blocking_spec (h : HState) (performOK : Bool) :
    (h.multi_handler ≠ none → perform_blocking h performOK = (.HDL_BAD_FUNCTION, [])) ∧
    (h.multi_handler = none →
      (perform_blocking h performOK).1 =
        (if performOK then .HDL_OK else .HDL_INTERNAL_ERROR) ∧
      (perform_blocking h performOK).2 =
        (if h.cb_done then
          [(if performOK then HDL_RetCode.HDL_OK else .HDL_INTERNAL_ERROR).toInt]
         else [])) := by
  constructor
  · intro hown; simp [perform_blocking, hown]
  · intro hown; constructor <;> simp [perform_blocking, hown]

/-- Witness for C7 at concrete inputs: an owned unit is rejected with no
callback, an unowned failing perform invokes the done callback with the
internal-error code. -/
theorem perform_blocking_spec_witness :
    perform_blocking H7o true = (.HDL_BAD_FUNCTION, []) ∧
    (perform_blocking H7c false).1 =
      (if false then HDL_RetCode.HDL_OK else .HDL_INTERNAL_ERROR) ∧
    (perform_blocking H7c false).2 =
      (if H7c.cb_done then
        [(if false then HDL_RetCode.HDL_OK else .HDL_INTERNAL_ERROR).toInt] else []) :=
  ⟨(perform_blocking_spec H7o true).1 (by decide),
   ((perform_blocking_spec H7c false).2 rfl).1,
   ((perform_blocking_spec H7c false).2 rfl).2⟩

/-- C9: when the engine's detach call fails, `remove_handle` on a handle
owned by this session returns the internal-error code and the world is
entirely unchanged — owner reference, transfer pool and socket-watch pool
included (no partial mutation). -/
theorem remove_handle_atomic_on_engine_failure (w : World) (s : SessionId)
    (hid : HandleId) (eng : Engine)
    (hOwn : (w.hs hid).multi_handler = some s)
    (hFail : eng.multiRemove hid = false) :
    remove_handle w s hid eng = (.MHDL_INTERNAL_ERROR, w) := by
  unfold remove_handle
  rw [if_neg (by simp [hOwn]), if_neg (by simp [hOwn]), if_neg (by simp [hFail])]

/-- Witness for C9: session 0 owns handle 4, the engine detach fails, and
the call returns the internal error with the world unchanged. -/
theorem remove_handle_atomic_on_engine_failure_witness :
    remove_handle W9c 0 4 E9c = (.MHDL_INTERNAL_ERROR, W9c) :=
  remove_handle_atomic_on_engine_failure W9c 0 4 E9c (by decide) rfl

/-- C10: `is_paused m` is true exactly when the pause-flag bitset shares at
least one bit with `m` (paused in any requested direction, not necessarily
all), and its result depends on nothing but the stored pause-flag bitset —
it neither consults nor mutates engine state (it is a pure function of the
flags field). -/
theorem is_paused_shared_bit (h : HState) (bitmask : Nat) :
    (is_paused h bitmask = true ↔
      ∃ k, h.flags.testBit k ∧ bitmask.testBit k) ∧
    (∀ h2 : HState, h2.flags = h.flags → is_paused h2 bitmask = is_paused h bitmask) := by
  constructor
  · unfold is_paused
    rw [bne_iff_ne]
    constructor
    · intro hne
      by_contra hall
      push_neg at hall
      refine hne (Nat.eq_of_testBit_eq fun i => ?_)
      simp only [Nat.testBit_land, Nat.zero_testBit]
      cases hf : h.flags.testBit i with
      | false => simp
      | true => simp [hall i hf]
    · rintro ⟨k, hk1, hk2⟩ h0
      have hbit := congrArg (fun n => n.testBit k) h0
      simp [Nat.testBit_land, hk1, hk2, Nat.zero_testBit] at hbit
  · intro h2 he
    unfold is_paused
    rw [he]

/-- Witness for C10: with flags = RECV ||| SEND = 5, querying the send
direction (mask 4) reports paused, via the shared bit at position 2. -/
theorem is_paused_shared_bit_witness :
    is_paused H10c CURLPAUSE_SEND = true ∧
    is_paused H10c 2 = false :=
  ⟨(is_paused_shared_bit H10c CURLPAUSE_SEND).1.mpr ⟨2, by decide, by decide⟩,
   by decide⟩

/-- C1: assuming the engine accepts the registration and the bootstrap
action succeeds, and no queued message reports a synchronous completion of
the added handle, `add_handle` succeeds exactly when the handle has no
owning session and the session is not stopped; a stopped session yields the
internal error, a handle already owned by this (non-stopped) session yields
`MHDL_ADD_ALREADY`, one owned by a different session yields
`MHDL_ADD_OWNED`; and after success the handle's owning-session reference
is this session and the handle is in the session's transfer pool. -/
theorem add_handle_ownership_spec (w : World) (s : SessionId) (hid : HandleId) (eng : Engine)
    (hAdd : eng.multiAdd = true) (hAct : eng.actionRet = CURLM_OK)
    (hNoSync : ∀ m ∈ eng.msgs, m.msg_done = true → m.easy_handle ≠ hid) :
    ((add_handle w s hid eng).1 = .MHDL_OK ↔
      ((w.hs hid).multi_handler = none ∧ (w.ms s).running ≠ MHDL_STOPPED)) ∧
    ((w.ms s).running = MHDL_STOPPED →
      (add_handle w s hid eng).1 = .MHDL_INTERNAL_ERROR) ∧
    ((w.ms s).running ≠ MHDL_STOPPED → (w.hs hid).multi_handler = some s →
      (add_handle w s hid eng).1 = .MHDL_ADD_ALREADY) ∧
    ((w.ms s).running ≠ MHDL_STOPPED →
      ∀ t, (w.hs hid).multi_handler = some t → t ≠ s →
        (add_handle w s hid eng).1 = .MHDL_ADD_OWNED) ∧
    ((add_handle w s hid eng).1 = .MHDL_OK →
      ((add_handle w s hid eng).2.1.hs hid).multi_handler = some s ∧
      hid ∈ ((add_handle w s hid eng).2.1.ms s).handles) := by
  by_cases hStop : (w.ms s).running = MHDL_STOPPED
  · have hres : add_handle w s hid eng = (.MHDL_INTERNAL_ERROR, w, []) := by
      simp [add_handle, hStop]
    rw [hres]
    refine ⟨by simp [hStop], fun _ => rfl, ?_, ?_, by simp⟩
    · intro hc; exact absurd hStop hc
    · intro hc; exact absurd hStop hc
  · by_cases hOwnS : (w.hs hid).multi_handler = some s
    · have hres : add_handle w s hid eng = (.MHDL_ADD_ALREADY, w, []) := by
        simp [add_handle, hStop, hOwnS]
      rw [hres]
      refine ⟨by simp [hOwnS], fun hc => absurd hc hStop, fun _ _ => rfl, ?_, by simp⟩
      intro _ t ht hts
      rw [hOwnS] at ht
      exact absurd (Option.some.inj ht).symm hts
    · by_cases hOwnN : (w.hs hid).multi_handler = none
      · refine ⟨?_, fun hc => absurd hc hStop, ?_, ?_, ?_⟩
        · constructor
          · intro _; exact ⟨hOwnN, hStop⟩
          · intro _
            exact add_handle_ok_of_unowned w s hid eng hStop hOwnN hAdd hAct
        · intro _ hc; rw [hOwnN] at hc; cases hc
        · intro _ t hc; rw [hOwnN] at hc; cases hc
        · intro _
          have hRun' : ¬((w.ms s).running = -1) := by simpa [MHDL_STOPPED] using hStop
          by_cases h0 : (w.ms s).running = 0
          · simp only [add_handle, handle_msgs]
            rw [if_neg hStop, if_neg hOwnS, if_neg (by simp [hOwnN]), if_pos hAdd,
              if_pos h0, if_neg (by simp [hAct])]
            dsimp only
            constructor
            · rw [(handle_msgs_go_preserve s eng eng.msgs _ hid hNoSync).1]
              simp
            · refine (handle_msgs_go_preserve s eng eng.msgs _ hid hNoSync).2 ?_
              simp
          · simp [add_handle, hRun', hOwnN, hAdd, h0, MHDL_STOPPED]
      · have hres : add_handle w s hid eng = (.MHDL_ADD_OWNED, w, []) := by
          simp [add_handle, hStop, hOwnS, hOwnN]
        rw [hres]
        refine ⟨by simp [hOwnN], fun hc => absurd hc hStop, ?_, fun _ _ _ _ => rfl, by simp⟩
        intro _ hc; exact absurd hc hOwnS

/-- Witness for C1: adding the unowned handle 2 to the idle session 0 with
an all-succeeding engine returns `MHDL_OK`, sets the owner reference and
inserts the handle into the pool. -/
theorem add_handle_ownership_spec_witness :
    (add_handle W1w 0 2 engOK).1 = .MHDL_OK ∧
    ((add_handle W1w 0 2 engOK).2.1.hs 2).multi_handler = some 0 ∧
    2 ∈ ((add_handle W1w 0 2 engOK).2.1.ms 0).handles := by
  have h := add_handle_ownership_spec W1w 0 2 engOK rfl rfl (by decide)
  have hOK : (add_handle W1w 0 2 engOK).1 = .MHDL_OK := h.1.mpr ⟨rfl, by decide⟩
  exact ⟨hOK, (h.2.2.2.2 hOK).1, (h.2.2.2.2 hOK).2⟩

/-- The completion drain, on a well-formed non-stopped session whose pooled
handles it owns, only ever fires a done callback after detaching the
corresponding handle: each observed invocation carries the queued message's
result code unmodified, sees the handle with no owning session and absent
from the pool, and an immediate re-add from inside the callback succeeds. -/
theorem handle_msgs_go_detach (s : SessionId) (eng eng2 : Engine)
    (hRem : ∀ hd, eng.multiRemove hd = true)
    (hAdd2 : eng2.multiAdd = true) (hAct2 : eng2.actionRet = CURLM_OK) :
    ∀ (msgs : List Msg) (w : World),
      (w.ms s).running ≠ MHDL_STOPPED →
      (∀ hd ∈ (w.ms s).handles, (w.hs hd).multi_handler = some s) →
      (w.ms s).handles.Nodup →
      ∀ o ∈ (handle_msgs_go s eng msgs w).2.2,
        (∃ m ∈ msgs, m.msg_done = true ∧ m.easy_handle = o.hid ∧ m.result = o.code) ∧
        (o.obsW.hs o.hid).multi_handler = none ∧
        o.hid ∉ (o.obsW.ms s).handles ∧
        (add_handle o.obsW s o.hid eng2).1 = .MHDL_OK := by
  intro msgs
  induction msgs with
  | nil =>
    intro w _ _ _ o ho
    simp [handle_msgs_go] at ho
  | cons m rest ih =>
    intro w hRun hInv hNd o ho
    by_cases hdone : m.msg_done = false
    · rw [show handle_msgs_go s eng (m :: rest) w = handle_msgs_go s eng rest w from by
        simp [handle_msgs_go, hdone]] at ho
      obtain ⟨⟨m', hm', hx⟩, h2, h3, h4⟩ := ih w hRun hInv hNd o ho
      exact ⟨⟨m', List.mem_cons_of_mem _ hm', hx⟩, h2, h3, h4⟩
    · have hdone' : m.msg_done = true := by revert hdone; cases m.msg_done <;> simp
      by_cases hmem : m.easy_handle ∈ (w.ms s).handles
      · have hOwn := hInv m.easy_handle hmem
        have hrw := remove_handle_owned w s m.easy_handle eng hOwn (hRem m.easy_handle)
        have hw1hs : (remove_handle w s m.easy_handle eng).2.hs =
            Function.update w.hs m.easy_handle
              ({ w.hs m.easy_handle with multi_handler := none }) := by
          rw [hrw]
        have hw1ms : (remove_handle w s m.easy_handle eng).2.ms =
            Function.update w.ms s
              ({ w.ms s with
                 handles := (w.ms s).handles.erase m.easy_handle
                 ios := Function.update (w.ms s).ios m.easy_handle none }) := by
          rw [hrw]
        have hrun1 : ((remove_handle w s m.easy_handle eng).2.ms s).running ≠ MHDL_STOPPED := by
          rw [hw1ms]; simpa using hRun
        have hpool1 : ((remove_handle w s m.easy_handle eng).2.ms s).handles =
            (w.ms s).handles.erase m.easy_handle := by
          rw [hw1ms]; simp
        have hInv1 : ∀ hd ∈ ((remove_handle w s m.easy_handle eng).2.ms s).handles,
            ((remove_handle w s m.easy_handle eng).2.hs hd).multi_handler = some s := by
          intro hd hd_mem
          rw [hpool1] at hd_mem
          obtain ⟨hne, hmem'⟩ := (List.Nodup.mem_erase_iff hNd).mp hd_mem
          rw [hw1hs, Function.update_noteq hne]
          exact hInv hd hmem'
        have hNd1 : ((remove_handle w s m.easy_handle eng).2.ms s).handles.Nodup := by
          rw [hpool1]; exact hNd.erase _
        have hdetach :
            ((remove_handle w s m.easy_handle eng).2.hs m.easy_handle).multi_handler = none := by
          rw [hw1hs]; simp
        have hnotmem :
            m.easy_handle ∉ ((remove_handle w s m.easy_handle eng).2.ms s).handles := by
          rw [hpool1]; exact hNd.not_mem_erase
        rw [show (handle_msgs_go s eng (m :: rest) w).2.2 =
            (if ((remove_handle w s m.easy_handle eng).2.hs m.easy_handle).cb_done then
              [CbObs.mk m.easy_handle m.result (remove_handle w s m.easy_handle eng).2]
             else []) ++
              (handle_msgs_go s eng rest (remove_handle w s m.easy_handle eng).2).2.2 from by
          simp [handle_msgs_go, hdone', hmem]] at ho
        rcases List.mem_append.mp ho with hhead | htail
        · have ho' : o = CbObs.mk m.easy_handle m.result (remove_handle w s m.easy_handle eng).2 := by
            revert hhead; split <;> simp_all
          subst ho'
          refine ⟨⟨m, List.mem_cons_self _ _, hdone', rfl, rfl⟩, hdetach, hnotmem, ?_⟩
          exact add_handle_ok_of_unowned _ s m.easy_handle eng2 hrun1 hdetach hAdd2 hAct2
        · obtain ⟨⟨m', hm', hx⟩, h2, h3, h4⟩ := ih _ hrun1 hInv1 hNd1 o htail
          exact ⟨⟨m', List.mem_cons_of_mem _ hm', hx⟩, h2, h3, h4⟩
      · rw [show handle_msgs_go s eng (m :: rest) w = handle_msgs_go s eng rest w from by
          simp [handle_msgs_go, hdone', hmem]] at ho
        obtain ⟨⟨m', hm', hx⟩, h2, h3, h4⟩ := ih w hRun hInv hNd o ho
        exact ⟨⟨m', List.mem_cons_of_mem _ hm', hx⟩, h2, h3, h4⟩

/-- C2: during completion draining on a well-formed non-stopped session
(every pooled handle owned by it, pool keys distinct, engine detach
succeeding), every done-callback invocation stems from a queued
finished-transfer message whose result code is forwarded unmodified, runs
after `remove_handle` — so it observes the handle detached (owner cleared,
gone from the pool) — and an immediate re-add of that handle from inside
the callback succeeds (given the re-add's engine calls succeed). -/
theorem handle_msgs_detach_before_done (w : World) (s : SessionId) (eng eng2 : Engine)
    (hRem : ∀ hd, eng.multiRemove hd = true)
    (hRun : (w.ms s).running ≠ MHDL_STOPPED)
    (hInv : ∀ hd ∈ (w.ms s).handles, (w.hs hd).multi_handler = some s)
    (hNd : (w.ms s).handles.Nodup)
    (hAdd2 : eng2.multiAdd = true) (hAct2 : eng2.actionRet = CURLM_OK) :
    ∀ o ∈ (handle_msgs w s eng).2.2,
      (∃ m ∈ eng.msgs, m.msg_done = true ∧ m.easy_handle = o.hid ∧ m.result = o.code) ∧
      (o.obsW.hs o.hid).multi_handler = none ∧
      o.hid ∉ (o.obsW.ms s).handles ∧
      (add_handle o.obsW s o.hid eng2).1 = .MHDL_OK :=
  handle_msgs_go_detach s eng eng2 hRem hAdd2 hAct2 eng.msgs w hRun hInv hNd

/-- Witness for C2: draining the single done message (result 42) for
handle 1 invokes its callback in the post-removal world `W2c'`, where the
handle is detached, out of the pool, and an immediate re-add succeeds. -/
theorem handle_msgs_detach_before_done_witness :
    (W2c'.hs 1).multi_handler = none ∧
    1 ∉ (W2c'.ms 0).handles ∧
    (add_handle W2c' 0 1 engOK).1 = .MHDL_OK := by
  have hm : (handle_msgs W2c 0 E2c).2.2 = [CbObs.mk 1 42 W2c'] := rfl
  have h := handle_msgs_detach_before_done W2c 0 E2c engOK (fun _ => rfl) (by decide)
    (by decide) (by decide) rfl rfl (CbObs.mk 1 42 W2c')
    (by rw [hm]; exact List.mem_singleton_self _)
  exact ⟨h.2.1, h.2.2.1, h.2.2.2⟩

/-- C8 counterexample: after the engine signals `CURL_POLL_REMOVE` for
socket 9, the session still holds a live watch for it (keyed by transfer 3)
— only its requested readiness bits were cleared — refuting "after the
engine signals removal for a socket, the Session holds no live watch for
it". -/
theorem poll_remove_retains_watch_counterexample :
    (socket_callback W8c 0 3 9 CURL_POLL_REMOVE (some 3)).2 = CURLM_OK ∧
    ((socket_callback W8c 0 3 9 CURL_POLL_REMOVE (some 3)).1.ms 0).ios 3 =
      some { fd := 9, requested := 0 } := by
  decide

/-- C8 (amended): the socket-registration callback maintains at most one
watch per transfer key and always reports success: on `CURL_POLL_REMOVE`
the referenced watch's requested readiness bits are cleared to zero while
the watch object itself is retained in the pool (and all other entries are
untouched); on first sight of a socket a single watch is created, keyed by
the transfer, and associated with the engine's per-socket bookkeeping; on
subsequent calls the existing watch is updated in place, tracking the
current descriptor and the requested interest, with no duplicate created. -/
theorem socket_callback_watch_spec (w : World) (s : SessionId) (easy : HandleId)
    (sock : Nat) (what : Nat) :
    (∀ k,
      (∀ j, j ≠ k →
        ((socket_callback w s easy sock CURL_POLL_REMOVE (some k)).1.ms s).ios j =
          (w.ms s).ios j) ∧
      (∀ io, (w.ms s).ios k = some io →
        ((socket_callback w s easy sock CURL_POLL_REMOVE (some k)).1.ms s).ios k =
          some { io with requested := 0 })) ∧
    (what ≠ CURL_POLL_REMOVE →
      ((socket_callback w s easy sock what none).1.ms s).ios easy =
        some { fd := sock, requested := pollEvents what } ∧
      ((socket_callback w s easy sock what none).1.ms s).assoc sock = some easy) ∧
    (what ≠ CURL_POLL_REMOVE → ∀ k,
      (∀ io, (w.ms s).ios k = some io →
        ((socket_callback w s easy sock what (some k)).1.ms s).ios k =
          some { io with fd := sock, requested := pollEvents what }) ∧
      (∀ j, j ≠ k →
        ((socket_callback w s easy sock what (some k)).1.ms s).ios j = (w.ms s).ios j)) ∧
    (∀ sp, (socket_callback w s easy sock what sp).2 = CURLM_OK) := by
  refine ⟨?_, ?_, ?_, ?_⟩
  · intro k
    constructor
    · intro j hj
      cases hio : (w.ms s).ios k with
      | none => simp [socket_callback, hio]
      | some io => simp [socket_callback, hio, Function.update_noteq hj]
    · intro io hio
      simp [socket_callback, hio]
  · intro hwhat
    constructor
    · simp [socket_callback, hwhat]
    · simp [socket_callback, hwhat]
  · intro hwhat k
    constructor
    · intro io hio
      simp [socket_callback, hwhat, hio]
    · intro j hj
      cases hio : (w.ms s).ios k with
      | none => simp [socket_callback, hwhat, hio]
      | some io => simp [socket_callback, hwhat, hio, Function.update_noteq hj]
  · intro sp
    cases sp with
    | none =>
      by_cases hwhat : what = CURL_POLL_REMOVE
      · simp [socket_callback, hwhat]
      · simp [socket_callback, hwhat]
    | some k =>
      by_cases hwhat : what = CURL_POLL_REMOVE
      · cases hio : (w.ms s).ios k with
        | none => simp [socket_callback, hwhat, hio]
        | some io => simp [socket_callback, hwhat, hio]
      · cases hio : (w.ms s).ios k with
        | none => simp [socket_callback, hwhat, hio]
        | some io => simp [socket_callback, hwhat, hio]

/-- Witness for C8 (amended) at concrete inputs: `CURL_POLL_REMOVE` on the
watch keyed by transfer 3 clears its bits to zero while retaining it; a
first-sight registration for transfer 7 on socket 11 creates the watch and
the engine association; and the callback reports success. -/
theorem socket_callback_watch_spec_witness :
    ((socket_callback W8c 0 3 9 CURL_POLL_REMOVE (some 3)).1.ms 0).ios 3 =
      some { fd := 9, requested := 0 } ∧
    ((socket_callback W8c 0 7 11 CURL_POLL_IN none).1.ms 0).ios 7 =
      some { fd := 11, requested := pollEvents CURL_POLL_IN } ∧
    ((socket_callback W8c 0 7 11 CURL_POLL_IN none).1.ms 0).assoc 11 = some 7 ∧
    (socket_callback W8c 0 3 9 CURL_POLL_REMOVE (some 3)).2 = CURLM_OK := by
  have h1 := (socket_callback_watch_spec W8c 0 3 9 CURL_POLL_REMOVE).1 3
  have h2 := (socket_callback_watch_spec W8c 0 7 11 CURL_POLL_IN).2.1 (by decide)
  have h4 := (socket_callback_watch_spec W8c 0 3 9 CURL_POLL_REMOVE).2.2.2 (some 3)
  exact ⟨h1.2 { fd := 9, requested := IO_READ } (by decide), h2.1, h2.2, h4⟩

end asyncurl
